import Mathlib

/-!
Verification of the relevance-scoring and selection core of the cv-wiz
backend (`app/utils/relevance_scorer.py`, `app/services/resume_compiler.py`,
`app/models/user.py`) against its natural-language specification.

The Python code is shallowly embedded:

* Python `str` is modeled as `String`, restricted to ASCII text.  Python
  `str.lower` is `lowerStr`, an ASCII lowercase map.
* Python floats are modeled exactly.  Every score produced by the scorer is
  of the form `(q / d) / sqrt s` with `q : Int` and `d s : Nat` positive,
  so scores are represented by the computable triple `Score` and compared by
  the decidable cross-multiplied comparison `Score.ble`, which is proved to
  agree with the real-number order of `Score.toReal`.
* Python `sorted(key=..., reverse=True)` is a stable descending sort; a
  stable sort over a decidable total preorder is uniquely determined, and is
  modeled by `List.insertionSort` with the descending relation `descRel`.
* Python `lst[:n]` is `pySlice` (including the negative-index semantics).
* A Python `set` built from a token list is modeled by `List.dedup`; only
  its membership, cardinality and element enumeration are ever consumed.
* The `RelevanceScorer.__new__` md5-keyed instance cache is modeled by an
  insertion-ordered association list keyed by the lowercased job-description
  text (md5 is treated as injective), with the same FIFO eviction.
-/

/-- ASCII model of Python `str.lower` on a single character: the 26 uppercase
letters map to their lowercase forms, and every other character is fixed. -/
def lowerChar (c : Char) : Char :=
  if c == 'A' then 'a' else if c == 'B' then 'b' else if c == 'C' then 'c'
  else if c == 'D' then 'd' else if c == 'E' then 'e' else if c == 'F' then 'f'
  else if c == 'G' then 'g' else if c == 'H' then 'h' else if c == 'I' then 'i'
  else if c == 'J' then 'j' else if c == 'K' then 'k' else if c == 'L' then 'l'
  else if c == 'M' then 'm' else if c == 'N' then 'n' else if c == 'O' then 'o'
  else if c == 'P' then 'p' else if c == 'Q' then 'q' else if c == 'R' then 'r'
  else if c == 'S' then 's' else if c == 'T' then 't' else if c == 'U' then 'u'
  else if c == 'V' then 'v' else if c == 'W' then 'w' else if c == 'X' then 'x'
  else if c == 'Y' then 'y' else if c == 'Z' then 'z' else c

/-- Python `str.lower` on a whole string. -/
def lowerStr (s : String) : String := String.mk (s.data.map lowerChar)

/-- Python whitespace (the characters recognized by `str.split()` and
`str.strip()`, ASCII part): space, tab, newline, vertical tab, form feed,
carriage return. -/
def isWs (c : Char) : Bool :=
  decide (c.toNat = 32 ∨ c.toNat = 9 ∨ c.toNat = 10 ∨ c.toNat = 11 ∨
    c.toNat = 12 ∨ c.toNat = 13)

/-- Python regex `\w` (ASCII part): letters, digits and underscore. -/
def isWordChar (c : Char) : Bool :=
  decide ((97 ≤ c.toNat ∧ c.toNat ≤ 122) ∨ (65 ≤ c.toNat ∧ c.toNat ≤ 90) ∨
    (48 ≤ c.toNat ∧ c.toNat ≤ 57) ∨ c.toNat = 95)

/-- `re.sub(r"[^\w\s+#.]", " ", text)`: every character other than word
characters, whitespace, `+`, `#` and `.` is replaced by a space. -/
def scrub (l : List Char) : List Char :=
  l.map (fun c => if isWordChar c || isWs c || c == '+' || c == '#' || c == '.'
    then c else ' ')

/-- Python `str.split()` with no separator: split on runs of whitespace,
producing no empty words.  `acc` holds the current word reversed. -/
def splitWsAux : List Char → List Char → List (List Char)
  | [], acc => if acc.isEmpty then [] else [acc.reverse]
  | c :: cs, acc =>
      if isWs c then
        if acc.isEmpty then splitWsAux cs [] else acc.reverse :: splitWsAux cs []
      else splitWsAux cs (c :: acc)

def splitWs (l : List Char) : List (List Char) := splitWsAux l []

/-- Python `t.rstrip(".")`: remove every trailing period. -/
def rstripDots (l : List Char) : List Char :=
  (l.reverse.dropWhile (· == '.')).reverse

/-- The trailing-punctuation step of `RelevanceScorer._tokenize`:
`if t.endswith(".") and t != ".net" and len(t) > 1: t = t.rstrip(".")`. -/
def stripTok (t : List Char) : List Char :=
  if t.getLast? == some '.' && t != ['.', 'n', 'e', 't'] && decide (1 < t.length)
  then rstripDots t else t

/-- The stop-word set of `RelevanceScorer.STOP_WORDS`. -/
def STOP_WORDS : List String :=
  ["the", "a", "an", "and", "or", "but", "in", "on", "at", "to", "for",
   "of", "with", "by", "from", "as", "is", "was", "are", "were", "been",
   "be", "have", "has", "had", "do", "does", "did", "will", "would",
   "could", "should", "may", "might", "must", "shall", "can", "need",
   "we", "you", "they", "he", "she", "it", "i", "me", "my", "our",
   "your", "their", "this", "that", "these", "those", "what", "which",
   "who", "whom", "when", "where", "why", "how", "all", "each", "every",
   "both", "few", "more", "most", "other", "some", "such", "no", "not",
   "only", "own", "same", "so", "than", "too", "very", "just", "also",
   "about", "into", "through", "during", "before", "after", "above",
   "below", "between", "under", "again", "further", "then", "once"]

/-- The final filter of `RelevanceScorer._tokenize`: keep `t` when it is not
a stop word, has length greater than one, and is not all digits. -/
def keepTok (t : List Char) : Bool :=
  !(STOP_WORDS.contains (String.mk t)) && decide (1 < t.length) &&
    !(t.all Char.isDigit)

/-- `RelevanceScorer._tokenize` applied to an already-lowercased character
list: scrub special characters, split on whitespace, strip trailing periods,
filter stop words, short tokens and digit-only tokens. -/
def tokenizeFrom (l : List Char) : List (List Char) :=
  ((splitWs (scrub l)).map stripTok).filter keepTok

/-- `RelevanceScorer._tokenize(text)`; the first step is `text.lower()`. -/
def tokenize (s : String) : List String :=
  (tokenizeFrom (s.data.map lowerChar)).map String.mk

/-- Python `str.strip()`: drop leading and trailing whitespace. -/
def pyStrip (l : List Char) : List Char :=
  ((l.dropWhile isWs).reverse.dropWhile isWs).reverse

/-- `RelevanceScorer._extract_job_title`: the first line of the stripped
text (only element 0 of the `"\n"` split is consumed), re-stripped; it is
the lowercased title when shorter than 100 characters, else empty. -/
def extract_job_title (jd : String) : String :=
  let first_line := pyStrip ((pyStrip jd.data).takeWhile (fun c => c != '\n'))
  if first_line.length < 100 then String.mk (first_line.map lowerChar) else ""

/-- Check that `needle` is a prefix of `hay`. -/
def matchPre : List Char → List Char → Bool
  | [], _ => true
  | _ :: _, [] => false
  | a :: as, b :: bs => a == b && matchPre as bs

/-- Python substring test `needle in hay` (note `"" in s` is always true). -/
def containsSub (needle : List Char) : List Char → Bool
  | [] => matchPre needle []
  | b :: bs => matchPre needle (b :: bs) || containsSub needle bs

/-- One attempted match of the regex `KEYWORD[:\s]+([^.]+)` at the head of
`l` for a single literal keyword alternative: the keyword, then a nonempty
run of colons or whitespace, then a nonempty capture running to the next
period.  Returns the capture and the rest of the input after the match. -/
def tryPat (kw : List Char) (l : List Char) : Option (List Char × List Char) :=
  if matchPre kw l then
    let after := l.drop kw.length
    let ws := after.takeWhile (fun c => c == ':' || isWs c)
    if ws.isEmpty then none
    else
      let rest := after.drop ws.length
      let cap := rest.takeWhile (fun c => c != '.')
      if cap.isEmpty then none else some (cap, rest.drop cap.length)
  else none

/-- Try the keyword alternatives of one pattern in order (regex alternation
prefers the leftmost alternative that completes a match). -/
def tryPats (kws : List (List Char)) (l : List Char) :
    Option (List Char × List Char) :=
  match kws with
  | [] => none
  | k :: ks =>
      match tryPat k l with
      | some r => some r
      | none => tryPats ks l

/-- `re.findall` for one pattern: scan left to right, collecting captures of
non-overlapping matches.  Each successful match consumes at least two
characters, so fuel equal to the input length never runs out. -/
def findCapturesAux (kws : List (List Char)) : Nat → List Char → List (List Char)
  | 0, _ => []
  | _ + 1, [] => []
  | n + 1, c :: cs =>
      match tryPats kws (c :: cs) with
      | some (cap, rest) => cap :: findCapturesAux kws n rest
      | none => findCapturesAux kws n cs

def findCaptures (kws : List (List Char)) (l : List Char) : List (List Char) :=
  findCapturesAux kws l.length l

/-- Keyword alternatives of
`r"(?:required|must have|essential|mandatory)[:\s]+([^.]+)"`. -/
def skillPattern1 : List (List Char) :=
  ["required".data, "must have".data, "essential".data, "mandatory".data]

/-- Keyword alternatives of
`r"(?:skills?|requirements?|qualifications?)[:\s]+([^.]+)"` (the optional
`s?` expands to the two literals, longest first as the regex prefers). -/
def skillPattern2 : List (List Char) :=
  ["skills".data, "skill".data, "requirements".data, "requirement".data,
   "qualifications".data, "qualification".data]

/-- Keyword alternatives of
`r"(?:experience with|proficiency in|knowledge of)[:\s]+([^.]+)"`. -/
def skillPattern3 : List (List Char) :=
  ["experience with".data, "proficiency in".data, "knowledge of".data]

/-- `RelevanceScorer._extract_required_skills`: run the three patterns over
the lowercased text, tokenize every captured fragment, and collect all
resulting tokens.  The Python `set` is modeled as the collected list; only
membership in it is ever consumed. -/
def extract_required_skills (jd : String) : List String :=
  let l := jd.data.map lowerChar
  ((findCaptures skillPattern1 l ++ findCaptures skillPattern2 l ++
      findCaptures skillPattern3 l).map
    (fun cap => (tokenizeFrom (cap.map lowerChar)).map String.mk)).flatten

/-- The derived, read-only state `RelevanceScorer.__init__` computes from a
job description: `self.job_description` (lowercased raw text),
`self.jd_tokens`, `self.job_title`, `self.required_skills`.  The keyword
frequency table `self.jd_keyword_freq = Counter(self.jd_tokens)` is the
derived function `Ctx.freq`. -/
structure Ctx where
  job_description : String
  jd_tokens : List String
  job_title : String
  required_skills : List String
deriving DecidableEq

/-- The analyzer: construction of the scorer state from a job description. -/
def analyze (job_description : String) : Ctx :=
  { job_description := lowerStr job_description
    jd_tokens := tokenize job_description
    job_title := extract_job_title job_description
    required_skills := extract_required_skills job_description }

/-- `self.jd_keyword_freq[t]`; also `t in self.jd_keyword_freq` is
`0 < freq t`, since a `Counter` built from a list has exactly the list
elements as keys. -/
def Ctx.freq (ctx : Ctx) (t : String) : Nat := ctx.jd_tokens.count t

/-- A score produced by the scorer.  Every score the Python code computes is
the float `(qnum / qden) / sqrt sden` with `qden` and `sden` positive; the
float arithmetic is modeled exactly by this triple.  `qden` collects the
denominators of the boost factors (`1.2 = 6/5`, `1.5 = 3/2`), `sden` the
square-root normalization divisor. -/
structure Score where
  qnum : Int
  qden : Nat
  sden : Nat
deriving DecidableEq

/-- The score with value zero: the `0.0` the Python scorers start from and
the `relevance_score: float = 0.0` model default. -/
def Score.zero : Score := ⟨0, 1, 1⟩

/-- Multiply a score by the rational boost `p / q` (`score *= boost`). -/
def Score.mul (s : Score) (p : Int) (q : Nat) : Score :=
  ⟨s.qnum * p, s.qden * q, s.sden⟩

/-- The real value of a score.  The `max _ 1` guards make the function total
on the representation; every score built by the scorers has `qden` and
`sden` positive, where the guards are the identity. -/
noncomputable def Score.toReal (s : Score) : ℝ :=
  (s.qnum : ℝ) / (((max s.qden 1 : ℕ) : ℝ) * Real.sqrt ((max s.sden 1 : ℕ) : ℝ))

/-- Decidable comparison of two score values, by sign analysis and
cross-multiplied squares; proved equivalent to `toReal _ ≤ toReal _` below.
This is the comparison the sort key `lambda x: x.score` induces. -/
def Score.ble (a b : Score) : Bool :=
  let Da : Int := (max a.qden 1 : Nat)
  let Db : Int := (max b.qden 1 : Nat)
  let Sa : Int := (max a.sden 1 : Nat)
  let Sb : Int := (max b.sden 1 : Nat)
  if a.qnum < 0 then
    if b.qnum < 0 then decide (b.qnum ^ 2 * Da ^ 2 * Sa ≤ a.qnum ^ 2 * Db ^ 2 * Sb)
    else true
  else
    if b.qnum < 0 then false
    else decide (a.qnum ^ 2 * Db ^ 2 * Sb ≤ b.qnum ^ 2 * Da ^ 2 * Sa)

/-- `app.models.user.Experience`, restricted to the fields the scorer and
selector consume (`location` and the date fields never reach the core;
`start_date`/`end_date` are omitted, `current` is kept as the recency flag
the scorer reads). -/
structure Experience where
  id : String
  company : String
  title : String
  current : Bool := false
  description : String
  highlights : List String := []
  keywords : List String := []
  relevance_score : Score := Score.zero
deriving DecidableEq

/-- `app.models.user.Project` (scoring-relevant fields). -/
structure Project where
  id : String
  name : String
  description : String
  technologies : List String := []
  highlights : List String := []
  relevance_score : Score := Score.zero
deriving DecidableEq

/-- `app.models.user.Education` (scoring-relevant fields). -/
structure Education where
  id : String
  institution : String
  degree : String
  field : String
  honors : List String := []
  relevance_score : Score := Score.zero
deriving DecidableEq

/-- `app.models.user.Skill`. -/
structure Skill where
  id : String
  name : String
  category : String
  proficiency : Option String := none
  relevance_score : Score := Score.zero
deriving DecidableEq

/-- `app.models.user.Publication` (scoring-relevant fields). -/
structure Publication where
  id : String
  title : String
  venue : String
  abstract : Option String := none
  relevance_score : Score := Score.zero
deriving DecidableEq

/-- `app.models.user.UserSettings` (the field the compiler reads). -/
structure UserSettings where
  selected_template : String := "experience-skills-projects"
deriving DecidableEq

/-- `app.models.user.UserProfile` (the fields the core consumes). -/
structure UserProfile where
  id : String
  email : String
  name : Option String := none
  experiences : List Experience := []
  projects : List Project := []
  educations : List Education := []
  skills : List Skill := []
  publications : List Publication := []
  settings : Option UserSettings := none
deriving DecidableEq

/-- `app.utils.relevance_scorer.ScoredItem`. -/
structure ScoredItem (α : Type) where
  item : α
  score : Score
  matched_keywords : List String
deriving DecidableEq

/-- `RelevanceScorer.TITLE_MATCH_BOOST = 2.0` as the fraction `2/1`. -/
def TITLE_MATCH_BOOST : Int × Nat := (2, 1)

/-- `RelevanceScorer.RECENCY_BOOST = 1.2` as the fraction `6/5`. -/
def RECENCY_BOOST : Int × Nat := (6, 5)

/-- `RelevanceScorer.SKILL_EXACT_MATCH_BOOST = 1.5` as the fraction `3/2`. -/
def SKILL_EXACT_MATCH_BOOST : Int × Nat := (3, 2)

/-- `RelevanceScorer.score_experience`.  The keyword-overlap base score is a
sum of job-description frequencies over the distinct tokens of the text
blob; the Python `set` iteration is modeled by `List.dedup`.  The trailing
division by `len(exp_tokens) ** 0.5` (only when the token set is nonempty)
is recorded in the `sden` component. -/
def score_experience (ctx : Ctx) (exp : Experience) : ScoredItem Experience :=
  let text_blob := String.intercalate " "
    [exp.title, exp.company, exp.description,
     String.intercalate " " exp.highlights,
     String.intercalate " " exp.keywords]
  let exp_tokens := (tokenize text_blob).dedup
  let matched := exp_tokens.filter (fun t => 0 < ctx.freq t)
  let base : Int := ((matched.map ctx.freq).sum : Nat)
  let s0 : Score := ⟨base, 1, max exp_tokens.length 1⟩
  let s1 := if ctx.job_title != "" &&
      !((tokenize exp.title).inter (tokenize ctx.job_title)).isEmpty
    then s0.mul TITLE_MATCH_BOOST.1 TITLE_MATCH_BOOST.2 else s0
  let s2 := if exp.current then s1.mul RECENCY_BOOST.1 RECENCY_BOOST.2 else s1
  { item := { exp with relevance_score := s2 }, score := s2,
    matched_keywords := matched }

/-- `RelevanceScorer.score_project`.  On top of the keyword overlap, each
distinct lowercased technology present among the job-description tokens
adds a flat bonus of 2. -/
def score_project (ctx : Ctx) (proj : Project) : ScoredItem Project :=
  let text_blob := String.intercalate " "
    [proj.name, proj.description,
     String.intercalate " " proj.technologies,
     String.intercalate " " proj.highlights]
  let proj_tokens := (tokenize text_blob).dedup
  let matched := proj_tokens.filter (fun t => 0 < ctx.freq t)
  let base : Int := ((matched.map ctx.freq).sum : Nat)
  let tech_matches :=
    ((proj.technologies.map lowerStr).dedup).filter (fun t => 0 < ctx.freq t)
  let s : Score := ⟨base + 2 * tech_matches.length, 1, max proj_tokens.length 1⟩
  { item := { proj with relevance_score := s }, score := s,
    matched_keywords := matched }

/-- `RelevanceScorer.score_skill`: exact-token match with frequency times
1.5, else substring match worth a flat 2.0, else zero; then a 1.5 boost for
required skills and a 1.2 boost for expert proficiency.  No normalization. -/
def score_skill (ctx : Ctx) (skill : Skill) : ScoredItem Skill :=
  let skill_name_lower := lowerStr skill.name
  let hit :=
    if 0 < ctx.freq skill_name_lower then
      some (Score.mk (ctx.freq skill_name_lower) 1 1
        |>.mul SKILL_EXACT_MATCH_BOOST.1 SKILL_EXACT_MATCH_BOOST.2)
    else if containsSub skill_name_lower.data ctx.job_description.data then
      some ⟨2, 1, 1⟩
    else none
  let s0 : Score := hit.getD Score.zero
  let matched : List String := if hit.isSome then [skill_name_lower] else []
  let s1 := if skill_name_lower ∈ ctx.required_skills then s0.mul 3 2 else s0
  let s2 :=
    if (match skill.proficiency with
        | some p => lowerStr p == "expert"
        | none => false)
    then s1.mul 6 5 else s1
  { item := { skill with relevance_score := s2 }, score := s2,
    matched_keywords := matched }

/-- `RelevanceScorer.score_education`: plain keyword-overlap accumulation,
no boosts, no normalization. -/
def score_education (ctx : Ctx) (edu : Education) : ScoredItem Education :=
  let text_blob := String.intercalate " "
    [edu.institution, edu.degree, edu.field, String.intercalate " " edu.honors]
  let edu_tokens := (tokenize text_blob).dedup
  let matched := edu_tokens.filter (fun t => 0 < ctx.freq t)
  let s : Score := ⟨((matched.map ctx.freq).sum : Nat), 1, 1⟩
  { item := { edu with relevance_score := s }, score := s,
    matched_keywords := matched }

/-- `RelevanceScorer.score_publication`: plain accumulation over title,
venue and the optional abstract (`pub.abstract or ""`). -/
def score_publication (ctx : Ctx) (pub : Publication) : ScoredItem Publication :=
  let text_blob := String.intercalate " "
    [pub.title, pub.venue, pub.abstract.getD ""]
  let pub_tokens := (tokenize text_blob).dedup
  let matched := pub_tokens.filter (fun t => 0 < ctx.freq t)
  let s : Score := ⟨((matched.map ctx.freq).sum : Nat), 1, 1⟩
  { item := { pub with relevance_score := s }, score := s,
    matched_keywords := matched }

/-- The descending order `sorted(key=lambda x: x.score, reverse=True)` sorts
by: `a` may precede `b` when `b.score <= a.score`. -/
def descRel {α : Type} (a b : ScoredItem α) : Prop :=
  Score.ble b.score a.score = true

instance {α : Type} : DecidableRel (@descRel α) :=
  fun _ _ => instDecidableEqBool _ _

/-- Python sorting is stable; a stable sort over a decidable total preorder
produces a uniquely determined list, here realized by insertion sort. -/
def sortDesc {α : Type} (l : List (ScoredItem α)) : List (ScoredItem α) :=
  List.insertionSort descRel l

/-- The result dictionary of `RelevanceScorer.score_profile`. -/
structure ScoredProfile where
  experiences : List (ScoredItem Experience)
  projects : List (ScoredItem Project)
  skills : List (ScoredItem Skill)
  educations : List (ScoredItem Education)
  publications : List (ScoredItem Publication)

/-- `RelevanceScorer.score_profile`: score every item of every category and
sort each category by descending score. -/
def score_profile (ctx : Ctx) (profile : UserProfile) : ScoredProfile :=
  { experiences := sortDesc (profile.experiences.map (score_experience ctx))
    projects := sortDesc (profile.projects.map (score_project ctx))
    skills := sortDesc (profile.skills.map (score_skill ctx))
    educations := sortDesc (profile.educations.map (score_education ctx))
    publications := sortDesc (profile.publications.map (score_publication ctx)) }

/-- Python list slicing `lst[:n]`, including the negative-`n` semantics
`lst[:n] = lst[0 : max(0, len(lst) + n)]`. -/
def pySlice {α : Type} (l : List α) (n : Int) : List α :=
  if 0 ≤ n then l.take n.toNat else l.take (l.length - n.natAbs)

/-- The result dictionary of `RelevanceScorer.select_top_items`. -/
structure SelectedItems where
  experiences : List Experience
  projects : List Project
  skills : List Skill
  educations : List Education
  publications : List Publication
deriving DecidableEq

/-- `RelevanceScorer.select_top_items`: truncate each scored category with
`[:max_*]` and unwrap the items.  The caps are Python ints and may be
negative, in which case `[:n]` drops items from the end. -/
def select_top_items (ctx : Ctx) (profile : UserProfile)
    (max_experiences max_projects max_skills max_education max_publications : Int) :
    SelectedItems :=
  let scored := score_profile ctx profile
  { experiences := (pySlice scored.experiences max_experiences).map (·.item)
    projects := (pySlice scored.projects max_projects).map (·.item)
    skills := (pySlice scored.skills max_skills).map (·.item)
    educations := (pySlice scored.educations max_education).map (·.item)
    publications := (pySlice scored.publications max_publications).map (·.item) }

/-- One entry of `app.services.resume_compiler.TEMPLATE_CONFIGS`. -/
structure TemplateConfig where
  max_experiences : Int
  max_projects : Int
  max_skills : Int
  max_education : Int
  max_publications : Int
  section_order : List String
deriving DecidableEq

/-- `TEMPLATE_CONFIGS` as an insertion-ordered association list. -/
def TEMPLATE_CONFIGS : List (String × TemplateConfig) :=
  [("experience-skills-projects",
    ⟨3, 2, 12, 1, 0, ["experiences", "skills", "projects", "educations"]⟩),
   ("education-research-skills",
    ⟨2, 1, 10, 2, 3, ["educations", "publications", "experiences", "skills"]⟩),
   ("projects-skills-experience",
    ⟨2, 4, 10, 1, 0, ["projects", "skills", "experiences", "educations"]⟩),
   ("compact-technical",
    ⟨2, 2, 15, 1, 0, ["skills", "experiences", "projects", "educations"]⟩)]

/-- `TEMPLATE_CONFIGS.get(name, TEMPLATE_CONFIGS["experience-skills-projects"])`:
lookup with fallback to the default configuration. -/
def templateConfigFor (name : String) : TemplateConfig :=
  match TEMPLATE_CONFIGS.lookup name with
  | some c => c
  | none =>
      ⟨3, 2, 12, 1, 0, ["experiences", "skills", "projects", "educations"]⟩

/-- The template-resolution step of `ResumeCompiler.compile`: the explicit
request parameter, else the saved profile preference, else the default. -/
def resolveTemplate (profile : UserProfile) (template : Option String) : String :=
  match template with
  | some t => t
  | none =>
      match profile.settings with
      | some s => s.selected_template
      | none => "experience-skills-projects"

/-- The scoring-and-selection slice of `ResumeCompiler.compile` (the cache
check, PDF rendering and response assembly around it are external to the
core): resolve the template, analyze the job description, select with the
resolved configuration caps. -/
def compileSelect (profile : UserProfile) (job_description : String)
    (template : Option String) : SelectedItems :=
  let template_val := resolveTemplate profile template
  let scorer := analyze job_description
  let config := templateConfigFor template_val
  select_top_items scorer profile config.max_experiences config.max_projects
    config.max_skills config.max_education config.max_publications

/-- The class-level instance cache of `RelevanceScorer.__new__`, as an
insertion-ordered association list (Python dicts iterate in insertion
order).  The md5 hex digest of the lowercased job description is modeled by
the lowercased job description itself. -/
abbrev ScorerCache := List (String × Ctx)

/-- `RelevanceScorer._cache_max_size`. -/
def CACHE_MAX_SIZE : Nat := 100

/-- `RelevanceScorer(job_description)` through `__new__` and `__init__`:
an empty job description bypasses the cache; otherwise a cached instance
for the same key is returned unchanged (`__init__` sees `_initialized` and
keeps the cached state), else a fresh instance is built, cached after FIFO
eviction of the oldest entry when the cache is full. -/
def mkScorer (cache : ScorerCache) (job_description : String) :
    Ctx × ScorerCache :=
  if job_description = "" then (analyze job_description, cache)
  else
    let key := lowerStr job_description
    match List.lookup key cache with
    | some ctx => (ctx, cache)
    | none =>
        let instance_ := analyze job_description
        let cache' : List (String × Ctx) :=
          if CACHE_MAX_SIZE ≤ cache.length then cache.drop 1 else cache
        (instance_, cache' ++ [(key, instance_)])

/-- Well-formedness of a cache state: every entry was created by a
construction `RelevanceScorer(jd)`, so it stores the analyzer state of some
job description under that description's lowercased-content key.  Every
cache reachable from the empty initial cache through `mkScorer` satisfies
this. -/
def CacheWF (cache : ScorerCache) : Prop :=
  ∀ kc ∈ cache, ∃ jd : String, kc.1 = lowerStr jd ∧ kc.2 = analyze jd

/-- Concrete fixture: a profile with two items per category, used to
instantiate universally quantified theorems at concrete inputs. -/
def demoProfile : UserProfile :=
  { id := "u1", email := "u@x.y",
    experiences :=
      [{ id := "e1", company := "acme", title := "dev", description := "built apps",
         keywords := ["python"] },
       { id := "e2", company := "food", title := "chef", description := "cooked" }],
    projects :=
      [{ id := "p1", name := "tool", description := "cli tool",
         technologies := ["python"] },
       { id := "p2", name := "site", description := "web site" }],
    educations :=
      [{ id := "d1", institution := "uni", degree := "bs", field := "cs" },
       { id := "d2", institution := "college", degree := "ms", field := "math" }],
    skills :=
      [{ id := "s1", name := "alpha", category := "prog" },
       { id := "s2", name := "beta", category := "prog" }],
    publications :=
      [{ id := "b1", title := "paper", venue := "conf" },
       { id := "b2", title := "note", venue := "journal" }] }

/-- Concrete fixture: an experience whose matchable fields are all empty. -/
def emptyExp : Experience := { id := "e0", company := "", title := "", description := "" }

/-- Concrete fixture: a skill whose name is the empty string. -/
def emptySkill : Skill := { id := "s0", name := "", category := "general" }

/-- Concrete fixture: an empty-named skill with expert proficiency. -/
def expertEmptySkill : Skill :=
  { id := "s9", name := "", category := "general", proficiency := some "Expert" }

/-- Descending order on the score assigned by `f`, in the real value of the
scores: the ordering `sorted(key=..., reverse=True)` establishes. -/
def descReal {α : Type} (f : α → Score) (a b : α) : Prop :=
  Score.toReal (f b) ≤ Score.toReal (f a)

theorem lowerChar_eq_self_or (c : Char) :
    lowerChar c = c ∨
      (65 ≤ c.toNat ∧ c.toNat ≤ 90 ∧ (lowerChar c).toNat = c.toNat + 32) := by
  unfold lowerChar
  by_cases h1 : (c == 'A') = true
  · rw [eq_of_beq h1]; decide
  rw [if_neg h1]
  by_cases h2 : (c == 'B') = true
  · rw [eq_of_beq h2]; decide
  rw [if_neg h2]
  by_cases h3 : (c == 'C') = true
  · rw [eq_of_beq h3]; decide
  rw [if_neg h3]
  by_cases h4 : (c == 'D') = true
  · rw [eq_of_beq h4]; decide
  rw [if_neg h4]
  by_cases h5 : (c == 'E') = true
  · rw [eq_of_beq h5]; decide
  rw [if_neg h5]
  by_cases h6 : (c == 'F') = true
  · rw [eq_of_beq h6]; decide
  rw [if_neg h6]
  by_cases h7 : (c == 'G') = true
  · rw [eq_of_beq h7]; decide
  rw [if_neg h7]
  by_cases h8 : (c == 'H') = true
  · rw [eq_of_beq h8]; decide
  rw [if_neg h8]
  by_cases h9 : (c == 'I') = true
  · rw [eq_of_beq h9]; decide
  rw [if_neg h9]
  by_cases h10 : (c == 'J') = true
  · rw [eq_of_beq h10]; decide
  rw [if_neg h10]
  by_cases h11 : (c == 'K') = true
  · rw [eq_of_beq h11]; decide
  rw [if_neg h11]
  by_cases h12 : (c == 'L') = true
  · rw [eq_of_beq h12]; decide
  rw [if_neg h12]
  by_cases h13 : (c == 'M') = true
  · rw [eq_of_beq h13]; decide
  rw [if_neg h13]
  by_cases h14 : (c == 'N') = true
  · rw [eq_of_beq h14]; decide
  rw [if_neg h14]
  by_cases h15 : (c == 'O') = true
  · rw [eq_of_beq h15]; decide
  rw [if_neg h15]
  by_cases h16 : (c == 'P') = true
  · rw [eq_of_beq h16]; decide
  rw [if_neg h16]
  by_cases h17 : (c == 'Q') = true
  · rw [eq_of_beq h17]; decide
  rw [if_neg h17]
  by_cases h18 : (c == 'R') = true
  · rw [eq_of_beq h18]; decide
  rw [if_neg h18]
  by_cases h19 : (c == 'S') = true
  · rw [eq_of_beq h19]; decide
  rw [if_neg h19]
  by_cases h20 : (c == 'T') = true
  · rw [eq_of_beq h20]; decide
  rw [if_neg h20]
  by_cases h21 : (c == 'U') = true
  · rw [eq_of_beq h21]; decide
  rw [if_neg h21]
  by_cases h22 : (c == 'V') = true
  · rw [eq_of_beq h22]; decide
  rw [if_neg h22]
  by_cases h23 : (c == 'W') = true
  · rw [eq_of_beq h23]; decide
  rw [if_neg h23]
  by_cases h24 : (c == 'X') = true
  · rw [eq_of_beq h24]; decide
  rw [if_neg h24]
  by_cases h25 : (c == 'Y') = true
  · rw [eq_of_beq h25]; decide
  rw [if_neg h25]
  by_cases h26 : (c == 'Z') = true
  · rw [eq_of_beq h26]; decide
  rw [if_neg h26]
  exact Or.inl rfl

theorem lowerChar_idem (c : Char) : lowerChar (lowerChar c) = lowerChar c := by
  rcases lowerChar_eq_self_or c with h | ⟨h1, h2, h3⟩
  · rw [h]; exact h
  · rcases lowerChar_eq_self_or (lowerChar c) with h' | ⟨h1', h2', _⟩
    · exact h'
    · omega

theorem isWs_lowerChar (c : Char) : isWs (lowerChar c) = isWs c := by
  rcases lowerChar_eq_self_or c with h | ⟨h1, h2, h3⟩
  · rw [h]
  · unfold isWs
    rw [h3, decide_eq_decide]
    omega

theorem bne_newline_lowerChar (c : Char) : (lowerChar c != '\n') = (c != '\n') := by
  rcases lowerChar_eq_self_or c with h | ⟨h1, h2, h3⟩
  · rw [h]
  · have hc : (c == '\n') = false := by
      apply beq_eq_false_iff_ne.mpr
      intro e
      rw [e] at h1
      exact absurd h1 (by decide)
    have hl : (lowerChar c == '\n') = false := by
      apply beq_eq_false_iff_ne.mpr
      intro e
      rw [e] at h3
      have h10 : ('\n').toNat = 10 := rfl
      omega
    simp [bne, hc, hl]

theorem map_lowerChar_idem (l : List Char) :
    (l.map lowerChar).map lowerChar = l.map lowerChar := by
  rw [List.map_map]
  exact List.map_congr_left fun a _ => lowerChar_idem a

theorem lowerStr_data (s : String) : (lowerStr s).data = s.data.map lowerChar := rfl

theorem lowerStr_idem (s : String) : lowerStr (lowerStr s) = lowerStr s :=
  congrArg String.mk (map_lowerChar_idem s.data)

theorem tokenize_lowerStr (s : String) : tokenize (lowerStr s) = tokenize s :=
  congrArg (fun l => (tokenizeFrom l).map String.mk) (map_lowerChar_idem s.data)

theorem extract_required_skills_lowerStr (s : String) :
    extract_required_skills (lowerStr s) = extract_required_skills s := by
  simp only [extract_required_skills, lowerStr_data, map_lowerChar_idem]

theorem pyStrip_map_lowerChar (l : List Char) :
    pyStrip (l.map lowerChar) = (pyStrip l).map lowerChar := by
  have hw : (isWs ∘ lowerChar) = isWs := funext isWs_lowerChar
  unfold pyStrip
  rw [List.dropWhile_map, hw, ← List.map_reverse, List.dropWhile_map, hw,
    ← List.map_reverse]

theorem extract_job_title_lowerStr (s : String) :
    extract_job_title (lowerStr s) = extract_job_title s := by
  have hn : ((fun c => c != '\n') ∘ lowerChar) = (fun c => c != '\n') :=
    funext bne_newline_lowerChar
  have key : pyStrip ((pyStrip (s.data.map lowerChar)).takeWhile (fun c => c != '\n')) =
      (pyStrip ((pyStrip s.data).takeWhile (fun c => c != '\n'))).map lowerChar := by
    rw [pyStrip_map_lowerChar, List.takeWhile_map, hn, pyStrip_map_lowerChar]
  simp only [extract_job_title, lowerStr_data]
  rw [key, List.length_map]
  split
  · rw [map_lowerChar_idem]
  · rfl

theorem analyze_lowerStr (s : String) : analyze (lowerStr s) = analyze s := by
  unfold analyze
  rw [lowerStr_idem, tokenize_lowerStr, extract_job_title_lowerStr,
    extract_required_skills_lowerStr]

theorem analyze_congr (s₁ s₂ : String) (h : lowerStr s₁ = lowerStr s₂) :
    analyze s₁ = analyze s₂ := by
  rw [← analyze_lowerStr s₁, ← analyze_lowerStr s₂, h]

theorem one_lt_length_of_mem_tokenizeFrom (l w : List Char)
    (hw : w ∈ tokenizeFrom l) : 1 < w.length := by
  unfold tokenizeFrom at hw
  rw [List.mem_filter] at hw
  have h := hw.2
  unfold keepTok at h
  simp only [Bool.and_eq_true, decide_eq_true_eq] at h
  exact h.1.2

theorem ne_empty_of_mem_tokenize (s : String) (t : String) (ht : t ∈ tokenize s) :
    t ≠ "" := by
  unfold tokenize at ht
  rcases List.mem_map.mp ht with ⟨w, hw, rfl⟩
  have hl := one_lt_length_of_mem_tokenizeFrom _ w hw
  intro e
  have : w = [] := congrArg String.data e
  rw [this] at hl
  exact absurd hl (by decide)

theorem empty_not_mem_tokenize (s : String) : "" ∉ tokenize s :=
  fun h => ne_empty_of_mem_tokenize s "" h rfl

theorem ne_empty_of_mem_required (jd : String) (t : String)
    (ht : t ∈ extract_required_skills jd) : t ≠ "" := by
  unfold extract_required_skills at ht
  rcases List.mem_flatten.mp ht with ⟨L, hL, htL⟩
  rcases List.mem_map.mp hL with ⟨cap, _, rfl⟩
  rcases List.mem_map.mp htL with ⟨w, hw, rfl⟩
  have hl := one_lt_length_of_mem_tokenizeFrom _ w hw
  intro e
  have : w = [] := congrArg String.data e
  rw [this] at hl
  exact absurd hl (by decide)

theorem head_dropWhile_false {α : Type} (p : α → Bool) (l : List α) (a : α)
    (h : (l.dropWhile p).head? = some a) : p a = false := by
  induction l with
  | nil => simp [List.dropWhile] at h
  | cons b bs ih =>
      rw [List.dropWhile] at h
      split at h
      · exact ih h
      · rename_i hb; cases h; simpa using hb

theorem getLast_rstripDots_ne_dot (l : List Char) :
    (rstripDots l).getLast? ≠ some '.' := by
  unfold rstripDots
  rw [List.getLast?_reverse]
  intro h
  have := head_dropWhile_false (· == '.') l.reverse '.' h
  simp at this

theorem getLast_ne_dot_of_mem_tokenizeFrom (l w : List Char)
    (hw : w ∈ tokenizeFrom l) : w.getLast? ≠ some '.' := by
  unfold tokenizeFrom at hw
  rw [List.mem_filter] at hw
  rcases List.mem_map.mp hw.1 with ⟨v, _, rfl⟩
  have hk := hw.2
  unfold stripTok
  unfold stripTok at hk
  split
  · exact getLast_rstripDots_ne_dot v
  · rename_i hcond
    by_cases hvl : v.getLast? = some '.'
    · exfalso
      by_cases hvn : v = ['.', 'n', 'e', 't']
      · rw [hvn] at hvl; exact absurd hvl (by decide)
      · have hlen : ¬(1 < v.length) := fun hl => hcond (by simp [hvl, hvn, hl])
        rw [if_neg hcond] at hk
        unfold keepTok at hk
        simp only [Bool.and_eq_true, decide_eq_true_eq] at hk
        exact hlen hk.1.2
    · exact hvl

theorem getLast_ne_dot_of_mem_tokenize (s t : String) (ht : t ∈ tokenize s) :
    t.data.getLast? ≠ some '.' := by
  unfold tokenize at ht
  rcases List.mem_map.mp ht with ⟨w, hw, rfl⟩
  exact getLast_ne_dot_of_mem_tokenizeFrom _ w hw

theorem mul_sqrt_le_mul_sqrt_iff (x y Da Db Sa Sb : ℝ)
    (hx : 0 ≤ x) (hy : 0 ≤ y) (hDa : 0 ≤ Da) (hDb : 0 ≤ Db)
    (hSa : 0 ≤ Sa) (hSb : 0 ≤ Sb) :
    x * (Db * Real.sqrt Sb) ≤ y * (Da * Real.sqrt Sa) ↔
      x ^ 2 * Db ^ 2 * Sb ≤ y ^ 2 * Da ^ 2 * Sa := by
  rw [← pow_le_pow_iff_left (a := x * (Db * Real.sqrt Sb))
      (b := y * (Da * Real.sqrt Sa)) (n := 2)
      (by positivity) (by positivity) (by norm_num)]
  rw [mul_pow, mul_pow, mul_pow, mul_pow, Real.sq_sqrt hSb, Real.sq_sqrt hSa]
  rw [mul_assoc (x ^ 2), mul_assoc (y ^ 2)]

theorem neg_mul_sqrt_le_mul_sqrt_iff (x y Da Db Sa Sb : ℝ)
    (hx : x ≤ 0) (hy : y ≤ 0) (hDa : 0 ≤ Da) (hDb : 0 ≤ Db)
    (hSa : 0 ≤ Sa) (hSb : 0 ≤ Sb) :
    x * (Db * Real.sqrt Sb) ≤ y * (Da * Real.sqrt Sa) ↔
      y ^ 2 * Da ^ 2 * Sa ≤ x ^ 2 * Db ^ 2 * Sb := by
  rw [← neg_le_neg_iff, ← neg_mul, ← neg_mul,
    mul_sqrt_le_mul_sqrt_iff (-y) (-x) Db Da Sb Sa (by linarith) (by linarith)
      hDb hDa hSb hSa, neg_sq, neg_sq]

theorem Score.ble_iff (a b : Score) :
    Score.ble a b = true ↔ a.toReal ≤ b.toReal := by
  have hDa : (0:ℝ) < ((max a.qden 1 : ℕ) : ℝ) := by
    have h : 0 < max a.qden 1 := by omega
    exact_mod_cast h
  have hDb : (0:ℝ) < ((max b.qden 1 : ℕ) : ℝ) := by
    have h : 0 < max b.qden 1 := by omega
    exact_mod_cast h
  have hSa : (0:ℝ) ≤ ((max a.sden 1 : ℕ) : ℝ) := by positivity
  have hSb : (0:ℝ) ≤ ((max b.sden 1 : ℕ) : ℝ) := by positivity
  have hsa : (0:ℝ) < Real.sqrt ((max a.sden 1 : ℕ) : ℝ) := by
    apply Real.sqrt_pos.mpr
    have h : 0 < max a.sden 1 := by omega
    exact_mod_cast h
  have hsb : (0:ℝ) < Real.sqrt ((max b.sden 1 : ℕ) : ℝ) := by
    apply Real.sqrt_pos.mpr
    have h : 0 < max b.sden 1 := by omega
    exact_mod_cast h
  unfold Score.toReal
  rw [div_le_div_iff (mul_pos hDa hsa) (mul_pos hDb hsb)]
  simp only [Score.ble]
  split
  · rename_i ha
    have ha' : (a.qnum : ℝ) < 0 := Int.cast_lt_zero.mpr ha
    split
    · rename_i hb
      have hb' : (b.qnum : ℝ) < 0 := Int.cast_lt_zero.mpr hb
      rw [decide_eq_true_eq,
        neg_mul_sqrt_le_mul_sqrt_iff _ _ _ _ _ _ (le_of_lt ha') (le_of_lt hb')
          (le_of_lt hDa) (le_of_lt hDb) hSa hSb]
      constructor <;> intro h <;> exact_mod_cast h
    · rename_i hb
      have hb' : (0:ℝ) ≤ (b.qnum : ℝ) := Int.cast_nonneg.mpr (le_of_not_lt hb)
      constructor
      · intro _
        nlinarith [mul_pos hDb hsb, mul_pos hDa hsa]
      · intro _
        rfl
  · rename_i ha
    have ha' : (0:ℝ) ≤ (a.qnum : ℝ) := Int.cast_nonneg.mpr (le_of_not_lt ha)
    split
    · rename_i hb
      have hb' : (b.qnum : ℝ) < 0 := Int.cast_lt_zero.mpr hb
      constructor
      · intro h
        exact absurd h (by simp)
      · intro hle
        exfalso
        nlinarith [mul_pos hDb hsb, mul_pos hDa hsa]
    · rename_i hb
      have hb' : (0:ℝ) ≤ (b.qnum : ℝ) := Int.cast_nonneg.mpr (le_of_not_lt hb)
      rw [decide_eq_true_eq,
        mul_sqrt_le_mul_sqrt_iff _ _ _ _ _ _ ha' hb'
          (le_of_lt hDa) (le_of_lt hDb) hSa hSb]
      constructor <;> intro h <;> exact_mod_cast h

theorem Score.ble_total (a b : Score) :
    Score.ble a b = true ∨ Score.ble b a = true := by
  rcases le_total a.toReal b.toReal with h | h
  · exact Or.inl ((Score.ble_iff a b).mpr h)
  · exact Or.inr ((Score.ble_iff b a).mpr h)

theorem Score.ble_trans (a b c : Score) (h1 : Score.ble a b = true)
    (h2 : Score.ble b c = true) : Score.ble a c = true :=
  (Score.ble_iff a c).mpr
    (le_trans ((Score.ble_iff a b).mp h1) ((Score.ble_iff b c).mp h2))

theorem Score.toReal_nonneg (s : Score) (h : 0 ≤ s.qnum) : 0 ≤ s.toReal := by
  unfold Score.toReal
  apply div_nonneg
  · exact_mod_cast h
  · positivity

theorem Score.toReal_pos (s : Score) (h : 0 < s.qnum) : 0 < s.toReal := by
  unfold Score.toReal
  apply div_pos
  · exact_mod_cast h
  · have h1 : (0:ℝ) < ((max s.qden 1 : ℕ) : ℝ) := by
      have hh : 0 < max s.qden 1 := by omega
      exact_mod_cast hh
    have h2 : (0:ℝ) < Real.sqrt ((max s.sden 1 : ℕ) : ℝ) := by
      apply Real.sqrt_pos.mpr
      have hh : 0 < max s.sden 1 := by omega
      exact_mod_cast hh
    exact mul_pos h1 h2

theorem Score.toReal_eq_zero (s : Score) (h : s.qnum = 0) : s.toReal = 0 := by
  unfold Score.toReal
  rw [h]
  simp

theorem sortDesc_sorted {α : Type} (l : List (ScoredItem α)) :
    (sortDesc l).Pairwise (@descRel α) := by
  haveI : IsTotal (ScoredItem α) descRel :=
    ⟨fun a b => Score.ble_total b.score a.score⟩
  haveI : IsTrans (ScoredItem α) descRel :=
    ⟨fun a b c h1 h2 => Score.ble_trans c.score b.score a.score h2 h1⟩
  exact List.sorted_insertionSort descRel l

theorem sortDesc_perm {α : Type} (l : List (ScoredItem α)) :
    (sortDesc l).Perm l :=
  List.perm_insertionSort descRel l

theorem sortDesc_pairwise_toReal {α : Type} (l : List (ScoredItem α)) :
    (sortDesc l).Pairwise (descReal ScoredItem.score) :=
  (sortDesc_sorted l).imp (fun h => (Score.ble_iff _ _).mp h)

theorem sortDesc_length {α : Type} (l : List (ScoredItem α)) :
    (sortDesc l).length = l.length :=
  (sortDesc_perm l).length_eq

theorem pySlice_sublist {α : Type} (l : List α) (n : Int) :
    (pySlice l n).Sublist l := by
  unfold pySlice
  split <;> exact List.take_sublist _ _

theorem pySlice_length_nonneg {α : Type} (l : List α) (n : Int) (h : 0 ≤ n) :
    (pySlice l n).length = min n.toNat l.length := by
  unfold pySlice
  rw [if_pos h, List.length_take]

theorem pySlice_length_neg {α : Type} (l : List α) (n : Int) (h : n < 0) :
    (pySlice l n).length = l.length - n.natAbs := by
  unfold pySlice
  rw [if_neg (by omega), List.length_take]
  omega

theorem selected_chain {α : Type} (f : α → Score) (l : List (ScoredItem α))
    (n : Int) (hf : ∀ x ∈ l, f x.item = x.score) :
    ((pySlice (sortDesc l) n).map (·.item)).Chain' (descReal f) := by
  have hsub : (pySlice (sortDesc l) n).Sublist (sortDesc l) :=
    pySlice_sublist _ n
  have hmem : ∀ x ∈ pySlice (sortDesc l) n, f x.item = x.score := fun x hx =>
    hf x ((sortDesc_perm l).mem_iff.mp (hsub.subset hx))
  have hp : (pySlice (sortDesc l) n).Pairwise (descReal ScoredItem.score) :=
    List.Pairwise.sublist hsub (sortDesc_pairwise_toReal l)
  have hp2 : (pySlice (sortDesc l) n).Pairwise
      (fun a b => descReal f a.item b.item) := by
    refine hp.imp_of_mem ?_
    intro a b ha hb h
    unfold descReal at h ⊢
    rw [hmem a ha, hmem b hb]
    exact h
  exact (List.pairwise_map.mpr hp2).chain'

theorem lookup_mem {β : Type} (key : String) (l : List (String × β)) (v : β)
    (h : List.lookup key l = some v) : (key, v) ∈ l := by
  induction l with
  | nil => simp [List.lookup] at h
  | cons kc rest ih =>
      rw [List.lookup] at h
      split at h
      · rename_i heq
        cases h
        have hk : key = kc.1 := eq_of_beq heq
        rw [hk]
        exact List.mem_cons_self _ _
      · right
        exact ih h

theorem mkScorer_fst (cache : ScorerCache) (h : CacheWF cache) (jd : String) :
    (mkScorer cache jd).1 = analyze jd := by
  simp only [mkScorer]
  split
  · rfl
  · cases hl : List.lookup (lowerStr jd) cache with
    | none => rfl
    | some ctx =>
        rcases h _ (lookup_mem _ _ _ hl) with ⟨jd0, hk, hc⟩
        show ctx = analyze jd
        exact hc.trans (analyze_congr jd0 jd hk.symm)

theorem score_experience_qnum_nonneg (ctx : Ctx) (e : Experience) :
    0 ≤ (score_experience ctx e).score.qnum := by
  simp only [score_experience, Score.mul, TITLE_MATCH_BOOST, RECENCY_BOOST]
  split <;> split
  all_goals exact Int.natCast_nonneg _

theorem score_project_qnum_nonneg (ctx : Ctx) (p : Project) :
    0 ≤ (score_project ctx p).score.qnum := by
  simp only [score_project]
  positivity

theorem score_skill_qnum_nonneg (ctx : Ctx) (sk : Skill) :
    0 ≤ (score_skill ctx sk).score.qnum := by
  simp only [score_skill, Score.mul, Score.zero, SKILL_EXACT_MATCH_BOOST]
  repeat' split
  all_goals simp only [Option.getD]
  all_goals norm_num

theorem score_education_qnum_nonneg (ctx : Ctx) (ed : Education) :
    0 ≤ (score_education ctx ed).score.qnum := by
  simp only [score_education]
  exact Int.natCast_nonneg _

theorem score_publication_qnum_nonneg (ctx : Ctx) (pub : Publication) :
    0 ≤ (score_publication ctx pub).score.qnum := by
  simp only [score_publication]
  exact Int.natCast_nonneg _

theorem score_experience_writes (ctx : Ctx) (e : Experience) :
    (score_experience ctx e).item.relevance_score = (score_experience ctx e).score := rfl

theorem score_project_writes (ctx : Ctx) (p : Project) :
    (score_project ctx p).item.relevance_score = (score_project ctx p).score := rfl

theorem score_skill_writes (ctx : Ctx) (sk : Skill) :
    (score_skill ctx sk).item.relevance_score = (score_skill ctx sk).score := rfl

theorem score_education_writes (ctx : Ctx) (ed : Education) :
    (score_education ctx ed).item.relevance_score = (score_education ctx ed).score := rfl

theorem score_publication_writes (ctx : Ctx) (pub : Publication) :
    (score_publication ctx pub).item.relevance_score = (score_publication ctx pub).score := rfl

theorem pySlice_sortDesc_map_length {α β : Type} (g : α → ScoredItem β)
    (l : List α) (n : Int) (h : 0 ≤ n) :
    ((pySlice (sortDesc (l.map g)) n).map (·.item)).length = min n.toNat l.length := by
  rw [List.length_map, pySlice_length_nonneg _ _ h, sortDesc_length, List.length_map]

theorem pySlice_sortDesc_map_length_neg {α β : Type} (g : α → ScoredItem β)
    (l : List α) (n : Int) (h : n < 0) :
    ((pySlice (sortDesc (l.map g)) n).map (·.item)).length = l.length - n.natAbs := by
  rw [List.length_map, pySlice_length_neg _ _ h, sortDesc_length, List.length_map]

/-- Claim C5: for every job-description context and every profile item, after
any of the five scoring operations the computed score — both the returned
`ScoredItem.score` and the `relevance_score` written onto the item — is
greater than or equal to 0 (stated for the real value of the score). -/
theorem relevance_scores_nonneg (ctx : Ctx) :
    (∀ e : Experience, 0 ≤ (score_experience ctx e).score.toReal ∧
      0 ≤ (score_experience ctx e).item.relevance_score.toReal) ∧
    (∀ p : Project, 0 ≤ (score_project ctx p).score.toReal ∧
      0 ≤ (score_project ctx p).item.relevance_score.toReal) ∧
    (∀ sk : Skill, 0 ≤ (score_skill ctx sk).score.toReal ∧
      0 ≤ (score_skill ctx sk).item.relevance_score.toReal) ∧
    (∀ ed : Education, 0 ≤ (score_education ctx ed).score.toReal ∧
      0 ≤ (score_education ctx ed).item.relevance_score.toReal) ∧
    (∀ pub : Publication, 0 ≤ (score_publication ctx pub).score.toReal ∧
      0 ≤ (score_publication ctx pub).item.relevance_score.toReal) := by
  exact ⟨fun e => ⟨Score.toReal_nonneg _ (score_experience_qnum_nonneg ctx e),
      Score.toReal_nonneg _ (score_experience_qnum_nonneg ctx e)⟩,
    fun p => ⟨Score.toReal_nonneg _ (score_project_qnum_nonneg ctx p),
      Score.toReal_nonneg _ (score_project_qnum_nonneg ctx p)⟩,
    fun sk => ⟨Score.toReal_nonneg _ (score_skill_qnum_nonneg ctx sk),
      Score.toReal_nonneg _ (score_skill_qnum_nonneg ctx sk)⟩,
    fun ed => ⟨Score.toReal_nonneg _ (score_education_qnum_nonneg ctx ed),
      Score.toReal_nonneg _ (score_education_qnum_nonneg ctx ed)⟩,
    fun pub => ⟨Score.toReal_nonneg _ (score_publication_qnum_nonneg ctx pub),
      Score.toReal_nonneg _ (score_publication_qnum_nonneg ctx pub)⟩⟩

/-- Claim C6: for each of the five scoring operations, the `score` field of
the returned `ScoredItem` wrapper and the `relevance_score` field written in
place onto the scored item are equal after the call, for every input item
and every job-description context. -/
theorem score_writeback_consistent (ctx : Ctx) :
    (∀ e : Experience,
      (score_experience ctx e).score = (score_experience ctx e).item.relevance_score) ∧
    (∀ p : Project,
      (score_project ctx p).score = (score_project ctx p).item.relevance_score) ∧
    (∀ sk : Skill,
      (score_skill ctx sk).score = (score_skill ctx sk).item.relevance_score) ∧
    (∀ ed : Education,
      (score_education ctx ed).score = (score_education ctx ed).item.relevance_score) ∧
    (∀ pub : Publication,
      (score_publication ctx pub).score = (score_publication ctx pub).item.relevance_score) :=
  ⟨fun _ => rfl, fun _ => rfl, fun _ => rfl, fun _ => rfl, fun _ => rfl⟩

/-- Claim C2: for every job-description context and every profile, in each
of the five per-category sequences produced by `score_profile` (and hence in
each truncated sequence returned by `select_top_items`, for arbitrary caps),
every adjacent pair of items has non-increasing scores: the real score value
at position i is greater than or equal to the one at position i+1. -/
theorem score_profile_sorted_desc (ctx : Ctx) (profile : UserProfile)
    (c1 c2 c3 c4 c5 : Int) :
    (score_profile ctx profile).experiences.Chain' (descReal ScoredItem.score) ∧
    (score_profile ctx profile).projects.Chain' (descReal ScoredItem.score) ∧
    (score_profile ctx profile).skills.Chain' (descReal ScoredItem.score) ∧
    (score_profile ctx profile).educations.Chain' (descReal ScoredItem.score) ∧
    (score_profile ctx profile).publications.Chain' (descReal ScoredItem.score) ∧
    (select_top_items ctx profile c1 c2 c3 c4 c5).experiences.Chain'
      (descReal Experience.relevance_score) ∧
    (select_top_items ctx profile c1 c2 c3 c4 c5).projects.Chain'
      (descReal Project.relevance_score) ∧
    (select_top_items ctx profile c1 c2 c3 c4 c5).skills.Chain'
      (descReal Skill.relevance_score) ∧
    (select_top_items ctx profile c1 c2 c3 c4 c5).educations.Chain'
      (descReal Education.relevance_score) ∧
    (select_top_items ctx profile c1 c2 c3 c4 c5).publications.Chain'
      (descReal Publication.relevance_score) := by
  refine ⟨(sortDesc_pairwise_toReal _).chain', (sortDesc_pairwise_toReal _).chain',
    (sortDesc_pairwise_toReal _).chain', (sortDesc_pairwise_toReal _).chain',
    (sortDesc_pairwise_toReal _).chain', ?_, ?_, ?_, ?_, ?_⟩
  · exact selected_chain Experience.relevance_score _ c1
      (fun x hx => by rcases List.mem_map.mp hx with ⟨e, _, rfl⟩; rfl)
  · exact selected_chain Project.relevance_score _ c2
      (fun x hx => by rcases List.mem_map.mp hx with ⟨p, _, rfl⟩; rfl)
  · exact selected_chain Skill.relevance_score _ c3
      (fun x hx => by rcases List.mem_map.mp hx with ⟨sk, _, rfl⟩; rfl)
  · exact selected_chain Education.relevance_score _ c4
      (fun x hx => by rcases List.mem_map.mp hx with ⟨ed, _, rfl⟩; rfl)
  · exact selected_chain Publication.relevance_score _ c5
      (fun x hx => by rcases List.mem_map.mp hx with ⟨pub, _, rfl⟩; rfl)

/-- Claim C1: for every profile and all non-negative caps, each of the five
sequences returned by `select_top_items` has length at most the cap of the
category, at most the number of available items of that category, and length
exactly `min cap available` — never fewer. -/
theorem select_top_items_respects_caps (ctx : Ctx) (profile : UserProfile)
    (c1 c2 c3 c4 c5 : Int) (h1 : 0 ≤ c1) (h2 : 0 ≤ c2) (h3 : 0 ≤ c3)
    (h4 : 0 ≤ c4) (h5 : 0 ≤ c5) :
    ((select_top_items ctx profile c1 c2 c3 c4 c5).experiences.length =
        min c1.toNat profile.experiences.length ∧
      ((select_top_items ctx profile c1 c2 c3 c4 c5).experiences.length : Int) ≤ c1 ∧
      (select_top_items ctx profile c1 c2 c3 c4 c5).experiences.length ≤
        profile.experiences.length) ∧
    ((select_top_items ctx profile c1 c2 c3 c4 c5).projects.length =
        min c2.toNat profile.projects.length ∧
      ((select_top_items ctx profile c1 c2 c3 c4 c5).projects.length : Int) ≤ c2 ∧
      (select_top_items ctx profile c1 c2 c3 c4 c5).projects.length ≤
        profile.projects.length) ∧
    ((select_top_items ctx profile c1 c2 c3 c4 c5).skills.length =
        min c3.toNat profile.skills.length ∧
      ((select_top_items ctx profile c1 c2 c3 c4 c5).skills.length : Int) ≤ c3 ∧
      (select_top_items ctx profile c1 c2 c3 c4 c5).skills.length ≤
        profile.skills.length) ∧
    ((select_top_items ctx profile c1 c2 c3 c4 c5).educations.length =
        min c4.toNat profile.educations.length ∧
      ((select_top_items ctx profile c1 c2 c3 c4 c5).educations.length : Int) ≤ c4 ∧
      (select_top_items ctx profile c1 c2 c3 c4 c5).educations.length ≤
        profile.educations.length) ∧
    ((select_top_items ctx profile c1 c2 c3 c4 c5).publications.length =
        min c5.toNat profile.publications.length ∧
      ((select_top_items ctx profile c1 c2 c3 c4 c5).publications.length : Int) ≤ c5 ∧
      (select_top_items ctx profile c1 c2 c3 c4 c5).publications.length ≤
        profile.publications.length) := by
  have e1 : (select_top_items ctx profile c1 c2 c3 c4 c5).experiences.length =
      min c1.toNat profile.experiences.length :=
    pySlice_sortDesc_map_length (score_experience ctx) profile.experiences c1 h1
  have e2 : (select_top_items ctx profile c1 c2 c3 c4 c5).projects.length =
      min c2.toNat profile.projects.length :=
    pySlice_sortDesc_map_length (score_project ctx) profile.projects c2 h2
  have e3 : (select_top_items ctx profile c1 c2 c3 c4 c5).skills.length =
      min c3.toNat profile.skills.length :=
    pySlice_sortDesc_map_length (score_skill ctx) profile.skills c3 h3
  have e4 : (select_top_items ctx profile c1 c2 c3 c4 c5).educations.length =
      min c4.toNat profile.educations.length :=
    pySlice_sortDesc_map_length (score_education ctx) profile.educations c4 h4
  have e5 : (select_top_items ctx profile c1 c2 c3 c4 c5).publications.length =
      min c5.toNat profile.publications.length :=
    pySlice_sortDesc_map_length (score_publication ctx) profile.publications c5 h5
  refine ⟨⟨e1, ?_, ?_⟩, ⟨e2, ?_, ?_⟩, ⟨e3, ?_, ?_⟩, ⟨e4, ?_, ?_⟩, ⟨e5, ?_, ?_⟩⟩
  all_goals first
    | (rw [e1]; omega) | (rw [e2]; omega) | (rw [e3]; omega)
    | (rw [e4]; omega) | (rw [e5]; omega)

/-- Claim C1 witness: the theorem instantiated at a concrete context,
profile and caps, with the non-negativity hypotheses discharged. -/
theorem select_top_items_respects_caps_witness :
    (select_top_items (analyze "") demoProfile 1 1 1 1 1).skills.length =
      min (1 : Int).toNat demoProfile.skills.length :=
  ((select_top_items_respects_caps (analyze "") demoProfile 1 1 1 1 1
    (by decide) (by decide) (by decide) (by decide) (by decide)).2.2.1).1

/-- Claim C3 counterexample: the claim says a negative cap yields an empty
sequence for that category or an invalid-argument failure.  The code does
neither: with two available skills and `max_skills = -1`, `select_top_items`
silently returns a single skill (Python slice semantics `lst[:-1]`). -/
theorem negative_cap_counterexample :
    (select_top_items (analyze "") demoProfile 3 2 (-1) 2 2).skills ≠ [] ∧
    (select_top_items (analyze "") demoProfile 3 2 (-1) 2 2).skills.length = 1 := by
  decide

/-- Claim C3 amended: a negative cap `n` is neither clamped to zero nor an
error; `select_top_items` applies Python slice semantics `lst[:n]`, so the
category keeps the sorted sequence with its last `natAbs n` items dropped —
`max 0 (available - natAbs n)` items, never more than available, and in
particular a non-empty result whenever `available > natAbs n`. -/
theorem negative_cap_python_slice (ctx : Ctx) (profile : UserProfile)
    (c1 c2 c3 c4 c5 : Int) :
    (c1 < 0 → (select_top_items ctx profile c1 c2 c3 c4 c5).experiences.length =
        profile.experiences.length - c1.natAbs ∧
      (select_top_items ctx profile c1 c2 c3 c4 c5).experiences.length ≤
        profile.experiences.length) ∧
    (c2 < 0 → (select_top_items ctx profile c1 c2 c3 c4 c5).projects.length =
        profile.projects.length - c2.natAbs ∧
      (select_top_items ctx profile c1 c2 c3 c4 c5).projects.length ≤
        profile.projects.length) ∧
    (c3 < 0 → (select_top_items ctx profile c1 c2 c3 c4 c5).skills.length =
        profile.skills.length - c3.natAbs ∧
      (select_top_items ctx profile c1 c2 c3 c4 c5).skills.length ≤
        profile.skills.length) ∧
    (c4 < 0 → (select_top_items ctx profile c1 c2 c3 c4 c5).educations.length =
        profile.educations.length - c4.natAbs ∧
      (select_top_items ctx profile c1 c2 c3 c4 c5).educations.length ≤
        profile.educations.length) ∧
    (c5 < 0 → (select_top_items ctx profile c1 c2 c3 c4 c5).publications.length =
        profile.publications.length - c5.natAbs ∧
      (select_top_items ctx profile c1 c2 c3 c4 c5).publications.length ≤
        profile.publications.length) := by
  refine ⟨fun h => ?_, fun h => ?_, fun h => ?_, fun h => ?_, fun h => ?_⟩
  · have e : (select_top_items ctx profile c1 c2 c3 c4 c5).experiences.length =
        profile.experiences.length - c1.natAbs :=
      pySlice_sortDesc_map_length_neg (score_experience ctx) profile.experiences c1 h
    exact ⟨e, by rw [e]; omega⟩
  · have e : (select_top_items ctx profile c1 c2 c3 c4 c5).projects.length =
        profile.projects.length - c2.natAbs :=
      pySlice_sortDesc_map_length_neg (score_project ctx) profile.projects c2 h
    exact ⟨e, by rw [e]; omega⟩
  · have e : (select_top_items ctx profile c1 c2 c3 c4 c5).skills.length =
        profile.skills.length - c3.natAbs :=
      pySlice_sortDesc_map_length_neg (score_skill ctx) profile.skills c3 h
    exact ⟨e, by rw [e]; omega⟩
  · have e : (select_top_items ctx profile c1 c2 c3 c4 c5).educations.length =
        profile.educations.length - c4.natAbs :=
      pySlice_sortDesc_map_length_neg (score_education ctx) profile.educations c4 h
    exact ⟨e, by rw [e]; omega⟩
  · have e : (select_top_items ctx profile c1 c2 c3 c4 c5).publications.length =
        profile.publications.length - c5.natAbs :=
      pySlice_sortDesc_map_length_neg (score_publication ctx) profile.publications c5 h
    exact ⟨e, by rw [e]; omega⟩

/-- Claim C3 amended witness: the amended theorem instantiated at concrete
inputs with all caps -1, hypotheses discharged. -/
theorem negative_cap_python_slice_witness :
    (select_top_items (analyze "") demoProfile (-1) (-1) (-1) (-1) (-1)).skills.length =
      demoProfile.skills.length - (-1 : Int).natAbs :=
  ((negative_cap_python_slice (analyze "") demoProfile (-1) (-1) (-1) (-1) (-1)).2.2.1
    (by decide)).1

/-- Claim C7 counterexample: the claim says a token ending in two or more
periods keeps all but one of its trailing periods.  The code uses
`t.rstrip(".")`, which strips ALL trailing periods: the token `xyz..`
becomes `xyz`, and the predicted `xyz.` is not produced. -/
theorem tokenize_trailing_periods_counterexample :
    tokenize "xyz.." = ["xyz"] ∧ "xyz." ∉ tokenize "xyz.." := by decide

/-- Claim C7 amended: the tokenizer strips ALL trailing periods from a
token that ends with a period (unless the token is `.net` or a single
character, which are anyway filtered or never end in a period), so no
emitted token ends with a period. -/
theorem tokenize_no_trailing_period (s t : String) (ht : t ∈ tokenize s) :
    t.data.getLast? ≠ some '.' :=
  getLast_ne_dot_of_mem_tokenize s t ht

/-- Claim C7 amended witness: instantiated at the token `xyz` of
`tokenize "xyz.."`, membership hypothesis discharged. -/
theorem tokenize_no_trailing_period_witness :
    ("xyz" ∈ tokenize "xyz..") ∧ ("xyz" : String).data.getLast? ≠ some '.' :=
  ⟨by decide, tokenize_no_trailing_period "xyz.." "xyz" (by decide)⟩

/-- Claim C8: for every fixed pair of job-description text and profile, two
invocations of `select_top_items` with identical arguments produce identical
output — including invocations through separately constructed scorer
instances, where the `__new__` cache may return a shared instance built from
any job description with the same lowercased content.  Stated over any two
well-formed cache states. -/
theorem select_deterministic_across_caches (cache₁ cache₂ : ScorerCache)
    (h₁ : CacheWF cache₁) (h₂ : CacheWF cache₂) (jd : String)
    (profile : UserProfile) (c1 c2 c3 c4 c5 : Int) :
    select_top_items (mkScorer cache₁ jd).1 profile c1 c2 c3 c4 c5 =
      select_top_items (mkScorer cache₂ jd).1 profile c1 c2 c3 c4 c5 := by
  rw [mkScorer_fst cache₁ h₁ jd, mkScorer_fst cache₂ h₂ jd]

/-- Claim C8 witness: a fresh scorer for "py dev" and a scorer served from
a cache entry built from the differently-cased "PY DEV" select identically;
both cache well-formedness hypotheses are discharged concretely. -/
theorem select_deterministic_across_caches_witness :
    select_top_items (mkScorer [] "py dev").1 demoProfile 3 2 10 2 2 =
      select_top_items
        (mkScorer [(lowerStr "PY DEV", analyze "PY DEV")] "py dev").1
        demoProfile 3 2 10 2 2 :=
  select_deterministic_across_caches [] [(lowerStr "PY DEV", analyze "PY DEV")]
    (fun kc h => absurd h (List.not_mem_nil kc))
    (fun kc h => by
      rcases List.mem_singleton.mp h with rfl
      exact ⟨"PY DEV", rfl, rfl⟩)
    "py dev" demoProfile 3 2 10 2 2

/-- Claim C9: for every profile, job description and template identifier
that is not one of the configured template names, the compilation slice does
not fail and produces its result using the caps of the default
`experience-skills-projects` configuration (3, 2, 12, 1, 0). -/
theorem compile_unknown_template_uses_default (profile : UserProfile)
    (jd : String) (t : String) (h : t ∉ TEMPLATE_CONFIGS.map Prod.fst) :
    compileSelect profile jd (some t) =
      select_top_items (analyze jd) profile 3 2 12 1 0 := by
  simp only [TEMPLATE_CONFIGS, List.map_cons, List.map_nil, List.mem_cons,
    List.not_mem_nil, or_false, not_or] at h
  obtain ⟨n1, n2, n3, n4⟩ := h
  have hl : List.lookup t TEMPLATE_CONFIGS = none := by
    simp [List.lookup, TEMPLATE_CONFIGS, beq_eq_false_iff_ne.mpr n1,
      beq_eq_false_iff_ne.mpr n2, beq_eq_false_iff_ne.mpr n3,
      beq_eq_false_iff_ne.mpr n4]
  simp only [compileSelect, resolveTemplate, templateConfigFor, hl]

/-- Claim C9 witness: instantiated at the unknown template name "modern",
with the not-a-configured-name hypothesis discharged. -/
theorem compile_unknown_template_uses_default_witness :
    compileSelect demoProfile "" (some "modern") =
      select_top_items (analyze "") demoProfile 3 2 12 1 0 :=
  compile_unknown_template_uses_default demoProfile "" "modern" (by decide)

theorem containsSub_nil (l : List Char) : containsSub [] l = true := by
  cases l <;> rfl

/-- Claim C10: for every job-description context (including the one built
from the empty job description) and every skill whose name is the empty
string, `score_skill` takes the substring-match branch — the empty string is
a substring of every text — and assigns the strictly positive score 2.0
(12/5 = 2.4 when proficiency is "expert" case-insensitively), recording the
empty string in `matched_keywords`. -/
theorem empty_skill_name_scores_positive (jd : String) (sk : Skill)
    (h : sk.name = "") :
    (score_skill (analyze jd) sk).matched_keywords = [""] ∧
    (score_skill (analyze jd) sk).score =
      (if sk.proficiency.map lowerStr = some "expert"
        then (⟨12, 5, 1⟩ : Score) else ⟨2, 1, 1⟩) ∧
    0 < (score_skill (analyze jd) sk).score.toReal := by
  have hname : lowerStr sk.name = "" := by rw [h]; rfl
  have hfreq : (analyze jd).freq "" = 0 :=
    List.count_eq_zero.mpr (empty_not_mem_tokenize jd)
  have hreq : "" ∉ (analyze jd).required_skills :=
    fun hm => ne_empty_of_mem_required jd "" hm rfl
  have hsub : containsSub ([] : List Char) (analyze jd).job_description.data = true :=
    containsSub_nil _
  have hscore : (score_skill (analyze jd) sk).score =
      (if sk.proficiency.map lowerStr = some "expert"
        then (⟨12, 5, 1⟩ : Score) else ⟨2, 1, 1⟩) := by
    cases hp : sk.proficiency with
    | none =>
        simp [score_skill, hname, hfreq, hreq, hsub, hp, Score.mul]
    | some p =>
        by_cases he : lowerStr p = "expert"
        · simp [score_skill, hname, hfreq, hreq, hsub, hp, he, Score.mul]
        · simp [score_skill, hname, hfreq, hreq, hsub, hp, he, Score.mul]
  refine ⟨?_, hscore, ?_⟩
  · simp [score_skill, hname, hfreq, hreq, hsub]
  · rw [hscore]
    split
    · exact Score.toReal_pos _ (by norm_num)
    · exact Score.toReal_pos _ (by norm_num)

/-- Claim C10 witness: instantiated at the job description "python dev"
and an expert empty-named skill, name hypothesis discharged. -/
theorem empty_skill_name_scores_positive_witness :
    (score_skill (analyze "python dev") expertEmptySkill).matched_keywords = [""] ∧
    (score_skill (analyze "python dev") expertEmptySkill).score =
      (if expertEmptySkill.proficiency.map lowerStr = some "expert"
        then (⟨12, 5, 1⟩ : Score) else ⟨2, 1, 1⟩) ∧
    0 < (score_skill (analyze "python dev") expertEmptySkill).score.toReal :=
  empty_skill_name_scores_positive "python dev" expertEmptySkill rfl

theorem filter_freq_empty_ctx (l : List String) :
    l.filter (fun t => decide (0 < (analyze "").freq t)) = [] :=
  List.filter_eq_nil_iff.mpr (fun a _ => by
    simp [Ctx.freq, show (analyze "").jd_tokens = [] from rfl])

theorem score_experience_empty_ctx (e : Experience) :
    (score_experience (analyze "") e).score.qnum = 0 ∧
    (score_experience (analyze "") e).score.toReal = 0 ∧
    (score_experience (analyze "") e).matched_keywords = [] := by
  have hjt : (analyze "").job_title = "" := rfl
  have hq : (score_experience (analyze "") e).score.qnum = 0 := by
    simp only [score_experience, filter_freq_empty_ctx, List.map_nil,
      List.sum_nil, Nat.cast_zero, hjt, bne_self_eq_false, Bool.false_and,
      Bool.false_eq_true, if_false]
    split <;> simp [Score.mul]
  refine ⟨hq, Score.toReal_eq_zero _ hq, ?_⟩
  simp only [score_experience, filter_freq_empty_ctx]

theorem score_project_empty_ctx (p : Project) :
    (score_project (analyze "") p).score.qnum = 0 ∧
    (score_project (analyze "") p).score.toReal = 0 ∧
    (score_project (analyze "") p).matched_keywords = [] := by
  have hq : (score_project (analyze "") p).score.qnum = 0 := by
    simp [score_project, filter_freq_empty_ctx]
  refine ⟨hq, Score.toReal_eq_zero _ hq, ?_⟩
  simp only [score_project, filter_freq_empty_ctx]

theorem score_skill_empty_ctx (sk : Skill) (h : sk.name ≠ "") :
    (score_skill (analyze "") sk).score.qnum = 0 ∧
    (score_skill (analyze "") sk).score.toReal = 0 ∧
    (score_skill (analyze "") sk).matched_keywords = [] := by
  have hdata : (lowerStr sk.name).data ≠ [] := by
    intro hd
    apply h
    have h2 : sk.name.data.map lowerChar = [] := hd
    rw [List.map_eq_nil_iff] at h2
    exact congrArg String.mk h2
  have hfreq : (analyze "").freq (lowerStr sk.name) = 0 := rfl
  have hsub : containsSub (lowerStr sk.name).data
      (analyze "").job_description.data = false := by
    cases hd : (lowerStr sk.name).data with
    | nil => exact absurd hd hdata
    | cons a as => rfl
  have hreq : lowerStr sk.name ∉ (analyze "").required_skills := by
    show lowerStr sk.name ∉ ([] : List String)
    exact List.not_mem_nil _
  have hq : (score_skill (analyze "") sk).score.qnum = 0 := by
    simp only [score_skill, hfreq, lt_self_iff_false, if_false, hsub,
      Bool.false_eq_true, hreq, Option.getD_none, Option.isSome_none]
    split <;> simp [Score.mul, Score.zero]
  refine ⟨hq, Score.toReal_eq_zero _ hq, ?_⟩
  simp only [score_skill, hfreq, lt_self_iff_false, if_false, hsub,
    Bool.false_eq_true, Option.isSome_none]

theorem score_education_empty_ctx (ed : Education) :
    (score_education (analyze "") ed).score.qnum = 0 ∧
    (score_education (analyze "") ed).score.toReal = 0 ∧
    (score_education (analyze "") ed).matched_keywords = [] := by
  have hq : (score_education (analyze "") ed).score.qnum = 0 := by
    simp [score_education, filter_freq_empty_ctx]
  refine ⟨hq, Score.toReal_eq_zero _ hq, ?_⟩
  simp only [score_education, filter_freq_empty_ctx]

theorem score_publication_empty_ctx (pub : Publication) :
    (score_publication (analyze "") pub).score.qnum = 0 ∧
    (score_publication (analyze "") pub).score.toReal = 0 ∧
    (score_publication (analyze "") pub).matched_keywords = [] := by
  have hq : (score_publication (analyze "") pub).score.qnum = 0 := by
    simp [score_publication, filter_freq_empty_ctx]
  refine ⟨hq, Score.toReal_eq_zero _ hq, ?_⟩
  simp only [score_publication, filter_freq_empty_ctx]

theorem score_experience_empty_item (ctx : Ctx) (e : Experience)
    (ht : e.title = "") (hc : e.company = "") (hd : e.description = "")
    (hh : e.highlights = []) (hk : e.keywords = []) :
    (score_experience ctx e).score.qnum = 0 ∧
    (score_experience ctx e).score.toReal = 0 ∧
    (score_experience ctx e).matched_keywords = [] := by
  have hblob : tokenize (" ".intercalate ["", "", "",
      " ".intercalate ([] : List String), " ".intercalate ([] : List String)]) = [] := by
    decide
  have h0 : tokenize "" = [] := rfl
  have hq : (score_experience ctx e).score.qnum = 0 := by
    simp only [score_experience, ht, hc, hd, hh, hk, hblob, List.dedup_nil,
      List.filter_nil, List.map_nil, List.sum_nil, Nat.cast_zero, h0]
    simp only [List.inter, List.elem_eq_mem, List.filter_nil, List.isEmpty_nil,
      Bool.not_true, Bool.and_false, Bool.false_eq_true, if_false]
    split <;> simp [Score.mul]
  refine ⟨hq, Score.toReal_eq_zero _ hq, ?_⟩
  simp only [score_experience, ht, hc, hd, hh, hk, hblob, List.dedup_nil,
    List.filter_nil]

theorem score_project_empty_item (ctx : Ctx) (p : Project)
    (hn : p.name = "") (hd : p.description = "") (htec : p.technologies = [])
    (hh : p.highlights = []) :
    (score_project ctx p).score.qnum = 0 ∧
    (score_project ctx p).score.toReal = 0 ∧
    (score_project ctx p).matched_keywords = [] := by
  have hblob : tokenize (" ".intercalate ["", "",
      " ".intercalate ([] : List String), " ".intercalate ([] : List String)]) = [] := by
    decide
  have hq : (score_project ctx p).score.qnum = 0 := by
    simp [score_project, hn, hd, htec, hh, hblob]
  refine ⟨hq, Score.toReal_eq_zero _ hq, ?_⟩
  simp only [score_project, hn, hd, htec, hh, hblob, List.dedup_nil,
    List.filter_nil]

theorem score_education_empty_item (ctx : Ctx) (ed : Education)
    (hi : ed.institution = "") (hdeg : ed.degree = "") (hf : ed.field = "")
    (hh : ed.honors = []) :
    (score_education ctx ed).score.qnum = 0 ∧
    (score_education ctx ed).score.toReal = 0 ∧
    (score_education ctx ed).matched_keywords = [] := by
  have hblob : tokenize (" ".intercalate ["", "", "",
      " ".intercalate ([] : List String)]) = [] := by
    decide
  have hq : (score_education ctx ed).score.qnum = 0 := by
    simp [score_education, hi, hdeg, hf, hh, hblob]
  refine ⟨hq, Score.toReal_eq_zero _ hq, ?_⟩
  simp only [score_education, hi, hdeg, hf, hh, hblob, List.dedup_nil,
    List.filter_nil]

theorem score_publication_empty_item (ctx : Ctx) (pub : Publication)
    (ht : pub.title = "") (hv : pub.venue = "") (ha : pub.abstract.getD "" = "") :
    (score_publication ctx pub).score.qnum = 0 ∧
    (score_publication ctx pub).score.toReal = 0 ∧
    (score_publication ctx pub).matched_keywords = [] := by
  have hblob : tokenize (" ".intercalate ["", "", ""]) = [] := by decide
  have hq : (score_publication ctx pub).score.qnum = 0 := by
    simp [score_publication, ht, hv, ha, hblob]
  refine ⟨hq, Score.toReal_eq_zero _ hq, ?_⟩
  simp only [score_publication, ht, hv, ha, hblob, List.dedup_nil,
    List.filter_nil]

/-- Claim C4 counterexample: the claim says scoring any item whose
matchable fields are all empty, against any context, yields score 0.0 with
empty matched keywords.  The all-empty skill scored against the empty
job-description context yields score 2.0 with `matched_keywords = [""]`:
the empty name is a substring of the empty job description. -/
theorem empty_input_zero_counterexample :
    (score_skill (analyze "") emptySkill).score = ⟨2, 1, 1⟩ ∧
    (score_skill (analyze "") emptySkill).score.qnum ≠ 0 ∧
    (score_skill (analyze "") emptySkill).matched_keywords = [""] ∧
    (score_skill (analyze "") emptySkill).matched_keywords ≠ [] := by decide

/-- Claim C4 amended: `analyze ""` yields a context with empty lowercased
text, empty token list (hence empty frequency table), empty job title and
empty required-skills set; scoring any experience, project, education or
publication against that empty context yields score 0.0 with empty matched
keywords, as does any skill with a NONEMPTY name; and any experience,
project, education or publication all of whose matchable fields are empty
scores 0.0 with empty matched keywords against every context.  The one
exception to the original claim is the empty-named skill, which takes the
substring branch and scores 2.0 (see the C10 theorem). -/
theorem empty_input_safety_amended :
    (analyze "" =
      { job_description := "", jd_tokens := [], job_title := "",
        required_skills := [] }) ∧
    (∀ e : Experience, (score_experience (analyze "") e).score.qnum = 0 ∧
      (score_experience (analyze "") e).score.toReal = 0 ∧
      (score_experience (analyze "") e).matched_keywords = []) ∧
    (∀ p : Project, (score_project (analyze "") p).score.qnum = 0 ∧
      (score_project (analyze "") p).score.toReal = 0 ∧
      (score_project (analyze "") p).matched_keywords = []) ∧
    (∀ sk : Skill, sk.name ≠ "" →
      (score_skill (analyze "") sk).score.qnum = 0 ∧
      (score_skill (analyze "") sk).score.toReal = 0 ∧
      (score_skill (analyze "") sk).matched_keywords = []) ∧
    (∀ ed : Education, (score_education (analyze "") ed).score.qnum = 0 ∧
      (score_education (analyze "") ed).score.toReal = 0 ∧
      (score_education (analyze "") ed).matched_keywords = []) ∧
    (∀ pub : Publication, (score_publication (analyze "") pub).score.qnum = 0 ∧
      (score_publication (analyze "") pub).score.toReal = 0 ∧
      (score_publication (analyze "") pub).matched_keywords = []) ∧
    (∀ (ctx : Ctx) (e : Experience), e.title = "" → e.company = "" →
      e.description = "" → e.highlights = [] → e.keywords = [] →
      (score_experience ctx e).score.qnum = 0 ∧
      (score_experience ctx e).score.toReal = 0 ∧
      (score_experience ctx e).matched_keywords = []) ∧
    (∀ (ctx : Ctx) (p : Project), p.name = "" → p.description = "" →
      p.technologies = [] → p.highlights = [] →
      (score_project ctx p).score.qnum = 0 ∧
      (score_project ctx p).score.toReal = 0 ∧
      (score_project ctx p).matched_keywords = []) ∧
    (∀ (ctx : Ctx) (ed : Education), ed.institution = "" → ed.degree = "" →
      ed.field = "" → ed.honors = [] →
      (score_education ctx ed).score.qnum = 0 ∧
      (score_education ctx ed).score.toReal = 0 ∧
      (score_education ctx ed).matched_keywords = []) ∧
    (∀ (ctx : Ctx) (pub : Publication), pub.title = "" → pub.venue = "" →
      pub.abstract.getD "" = "" →
      (score_publication ctx pub).score.qnum = 0 ∧
      (score_publication ctx pub).score.toReal = 0 ∧
      (score_publication ctx pub).matched_keywords = []) :=
  ⟨by decide, score_experience_empty_ctx, score_project_empty_ctx,
   score_skill_empty_ctx, score_education_empty_ctx,
   score_publication_empty_ctx, score_experience_empty_item,
   score_project_empty_item, score_education_empty_item,
   score_publication_empty_item⟩

/-- Claim C4 amended witness: the all-empty experience against a nonempty
context and a nonempty-named skill against the empty context, with all
field-emptiness hypotheses discharged. -/
theorem empty_input_safety_amended_witness :
    (score_experience (analyze "python") emptyExp).score.qnum = 0 ∧
    (score_skill (analyze "")
      { id := "s1", name := "alpha", category := "prog" }).score.qnum = 0 :=
  ⟨(empty_input_safety_amended.2.2.2.2.2.2.1 (analyze "python") emptyExp
      rfl rfl rfl rfl rfl).1,
   (empty_input_safety_amended.2.2.2.1
      { id := "s1", name := "alpha", category := "prog" } (by decide)).1⟩
